import Mathlib

/-!
Verification of the conversation-state subsystem of `gptcli.py`.

The Python program is a one-shot CLI for a chat-completion API.  Conversation
state is persisted as one JSON file per named conversation inside a fixed
store directory, together with a pointer file `.last_state` recording the
most recently used state name.

This file shallowly embeds the state-management functions of `gptcli.py`:

* `Store` models the store directory: the list of regular state files (each
  with a name, content and modification time) plus the pointer file, which
  `list_state_files` always excludes from directory scans and which may be
  absent, unreadable, or hold a string.
* File contents are modelled at the level the program observes them:
  a well-formed serialized state (`FileContent.state`) or unparsable bytes
  (`FileContent.invalid`); `load_state` maps the former through `json.load`
  and dies on the latter.
* `baseName` embeds Python's `Path(s).name` on POSIX paths (split on `/`,
  drop empty and `.` components, take the last component or `""`), and
  `strip` embeds `str.strip()` on ASCII whitespace.  Both are written as
  structural recursions over `List Char` so the kernel can evaluate them.
* `saveState` embeds `save_state` as its two observable steps: write the
  temporary file `<name>.tmp` (`saveStateStep1`), then atomically rename it
  over the target (`replaceFile`).  An interruption between the steps leaves
  the store exactly as `saveStateStep1` produced it.
* `resolve`, `getLastStateName`, `loadState`, `buildMessages`, `send`,
  `renameState`, `computePrompt` and `finishTurn` embed `resolve_state_path`,
  `get_last_state_name`, `load_state`, `build_messages`, the persistent
  send flow of `main`, the `rename` subcommand, the prompt-assembly lines of
  `main`, and the post-completion bookkeeping (save / pointer update / print)
  with its two possible I/O failures.

Errors are the spec taxonomy: `die` calls are mapped to the error kind the
spec assigns to that message (`noPrompt`/`emptyName`/`noState` are the
`ValidationError`s, `format` is `FormatError`, `notFound`/`conflict` the
administrative errors, `storage` is `StorageError`).
-/

namespace GptCli

/-- One chat turn, `{"role": ..., "content": ...}`. -/
structure Msg where
  role : String
  content : String
deriving DecidableEq

/-- A parsed conversation state file: `{"system": ..., "model": ..., "messages": [...]}`. -/
structure StateV where
  system : Option String
  model : Option String
  messages : List Msg
deriving DecidableEq

/-- Content of a file in the store directory, as `load_state` observes it:
either a well-formed serialized state or bytes that fail JSON parsing. -/
inductive FileContent where
  | state (s : StateV)
  | invalid (raw : String)
deriving DecidableEq

/-- A regular file in the store directory: name, content, and modification time. -/
structure Entry where
  name : String
  content : FileContent
  mtime : Nat
deriving DecidableEq

/-- The pointer file `.last_state`: absent, present but unreadable (read raises
`OSError`), or readable with a string content. -/
inductive PtrFile where
  | absent
  | unreadable
  | written (c : String)
deriving DecidableEq

/-- The store directory `~/.cache/gptcli/`: its regular state files (the
pointer file is kept separately, mirroring the filter in `list_state_files`),
plus the pointer file. -/
structure Store where
  files : List Entry
  ptr : PtrFile
deriving DecidableEq

/-- Error taxonomy of the spec.  `noPrompt`, `emptyName` and `noState` are the
three `ValidationError` exits of `main`/`resolve_state_path`; `format` is
`FormatError`; `notFound`/`conflict` are the administrative errors; `storage`
covers remaining I/O `die` calls. -/
inductive Err where
  | noPrompt
  | emptyName
  | noState
  | notFound
  | conflict
  | format
  | storage
deriving DecidableEq

deriving instance DecidableEq for Except

/-! ## String helpers: `str.strip()` and `Path(s).name` -/

/-- ASCII whitespace recognized by Python's `str.strip()`. -/
def isSpaceChar (c : Char) : Bool :=
  c = ' ' || c = '\t' || c = '\n' || c = '\x0d' || c = '\x0b' || c = '\x0c'

/-- Drop leading and trailing whitespace from a character list. -/
def stripData (l : List Char) : List Char :=
  ((l.dropWhile isSpaceChar).reverse.dropWhile isSpaceChar).reverse

/-- Python's `s.strip()` (ASCII whitespace). -/
def strip (s : String) : String := String.mk (stripData s.data)

/-- A path component that `pathlib` keeps in `parts`: non-empty and not `"."`. -/
def goodComp (c : List Char) : Bool := !c.isEmpty && c != ['.']

/-- Scan the characters of a POSIX path, tracking the current component and the
last kept component seen so far; return the final component as `Path(s).name`
does. -/
def baseNameAux : List Char → List Char → List Char → List Char
  | [], cur, last => if goodComp cur then cur else last
  | c :: rest, cur, last =>
    if c = '/' then
      baseNameAux rest [] (if goodComp cur then cur else last)
    else
      baseNameAux rest (cur ++ [c]) last

/-- Python's `Path(s).name` for POSIX paths: the last path component, with
empty and `"."` components dropped; `""` when no component remains. -/
def baseName (s : String) : String := String.mk (baseNameAux s.data [] [])

/-! ## Store directory primitives -/

/-- Look up the regular file of this name in the directory listing. -/
def lookupFile : List Entry → String → Option Entry
  | [], _ => none
  | e :: fs, n => if e.name = n then some e else lookupFile fs n

/-- Remove the file of this name, if present. -/
def removeFile : List Entry → String → List Entry
  | [], _ => []
  | e :: fs, n => if e.name = n then removeFile fs n else e :: removeFile fs n

/-- `open(path, "w")` + write: create or truncate the file with fresh content
and the current time as modification time. -/
def writeFile (fs : List Entry) (n : String) (c : FileContent) (t : Nat) : List Entry :=
  removeFile fs n ++ [⟨n, c, t⟩]

/-- `os.replace` / `Path.replace`: atomically rename `src` over `dst`,
preserving content and mtime; no-op if `src` does not exist. -/
def replaceFile (fs : List Entry) (src dst : String) : List Entry :=
  match lookupFile fs src with
  | none => fs
  | some e => writeFile (removeFile fs src) dst e.content e.mtime

/-- The temporary file used by `save_state`:
`path.with_suffix(path.suffix + ".tmp")`, i.e. `<name>.tmp`. -/
def tmpName (n : String) : String := n ++ ".tmp"

/-- First half of `save_state`: the temporary file has been written, the
rename has not yet happened (`tmp.open("w"); json.dump(...)`). -/
def saveStateStep1 (st : Store) (n : String) (s : StateV) (now : Nat) : Store :=
  { st with files := writeFile st.files (tmpName n) (.state s) now }

/-- `save_state(path, state)`: write `<name>.tmp`, then `tmp.replace(path)`. -/
def saveState (st : Store) (n : String) (s : StateV) (now : Nat) : Store :=
  let st1 := saveStateStep1 st n s now
  { st1 with files := replaceFile st1.files (tmpName n) n }

/-! ## Resolver and pointer (`get_last_state_name`, `resolve_state_path`) -/

/-- One step of Python's `max(candidates, key=mtime)`: keep the current
maximum, replace it only on a strictly larger key (first maximum wins ties). -/
def newerOf (a x : Entry) : Entry := if a.mtime < x.mtime then x else a

/-- `max(candidates, key=lambda p: p.stat().st_mtime)` over the directory
listing; `none` on an empty listing. -/
def newestFile : List Entry → Option Entry
  | [] => none
  | e :: es => some (es.foldl newerOf e)

/-- The directory-scan fallback of `get_last_state_name`: name of the
most-recently-modified state file, if any. -/
def fallbackNewest (st : Store) : Option String :=
  (newestFile st.files).map (fun e => e.name)

/-- `get_last_state_name()`: the stripped pointer content when the pointer
file is readable and strips to a non-empty string; otherwise the
most-recently-modified state file's name; otherwise `none`. -/
def getLastStateName (st : Store) : Option String :=
  match st.ptr with
  | .written c => if strip c = "" then fallbackNewest st else some (strip c)
  | _ => fallbackNewest st

/-- The pointer file yields no name to `get_last_state_name`: it is missing,
unreadable, or its content strips to the empty string. -/
def ptrGivesNone (st : Store) : Bool :=
  match st.ptr with
  | .written c => strip c = ""
  | .unreadable => true
  | .absent => true

/-- `resolve_state_path(state_arg)`, returning the resolved state name (the
path is the store directory joined with that name). -/
def resolve (st : Store) (stateArg : Option String) : Except Err String :=
  match stateArg with
  | some s =>
    let n := baseName s
    if n = "" then .error .emptyName else .ok n
  | none =>
    match getLastStateName st with
    | some n => .ok n
    | none => .error .noState

/-! ## Load and message assembly (`load_state`, `build_messages`) -/

/-- The in-memory default `{"system": None, "model": None, "messages": []}`
that `load_state` returns for a missing file. -/
def defaultState : StateV := ⟨none, none, []⟩

/-- `load_state(path)`: default state when the file is absent; the parsed
state when it parses; `die` (`FormatError`) when it does not. -/
def loadState (st : Store) (n : String) : Except Err StateV :=
  match lookupFile st.files n with
  | none => .ok defaultState
  | some e =>
    match e.content with
    | .state s => .ok s
    | .invalid _ => .error .format

/-- Python truthiness of `state.get("system")`: a present, non-empty string. -/
def sysTruthy (o : Option String) : Bool :=
  match o with
  | some s => s ≠ ""
  | none => false

/-- `build_messages(state)`: the system message when `state["system"]` is
truthy, followed by the stored history in order. -/
def buildMessages (s : StateV) : List Msg :=
  (if sysTruthy s.system then [⟨"system", s.system.getD ""⟩] else []) ++ s.messages

/-- The request list actually sent: `build_messages(state)` plus
`msgs.append({"role": "user", "content": prompt})`. -/
def requestMessages (s : StateV) (prompt : String) : List Msg :=
  buildMessages s ++ [⟨"user", prompt⟩]

/-! ## The persistent send flow of `main` -/

/-- Result of a successful persistent send: the store afterwards, the request
message list that was passed to `client.chat.completions.create`, and the
reply that was printed. -/
structure SendOk where
  store : Store
  request : List Msg
  reply : String
deriving DecidableEq

/-- The persistent (non-`--new`) send flow of `main`, lines 244-289, with the
prompt already assembled: empty-prompt check, resolve, load, default `model`
and `system` if absent, build and send the request (`complete` stands for
`call_openai`), append the user and assistant turns, `save_state`, and
`update_last_state`.  I/O along this path is assumed to succeed;
`finishTurn` models the two possible bookkeeping failures. -/
def send (st : Store) (stateArg : Option String) (prompt : String)
    (sysArg : Option String) (modelArg : String)
    (complete : String → List Msg → String) (now : Nat) : Except Err SendOk :=
  if prompt = "" then .error .noPrompt
  else
    match resolve st stateArg with
    | .error e => .error e
    | .ok name =>
      match loadState st name with
      | .error e => .error e
      | .ok s0 =>
        let s1 : StateV :=
          { system :=
              match s0.system, sysArg with
              | none, some t => if t = "" then none else some t
              | sys, _ => sys
            model :=
              match s0.model with
              | none => some modelArg
              | some m => some m
            messages := s0.messages }
        let req := requestMessages s1 prompt
        let modelUsed :=
          match s1.model with
          | some m => if m = "" then modelArg else m
          | none => modelArg
        let reply := complete modelUsed req
        let s2 : StateV :=
          { s1 with messages := s1.messages ++ [⟨"user", prompt⟩, ⟨"assistant", reply⟩] }
        let st1 := saveState st name s2 now
        .ok { store := { st1 with ptr := .written name }, request := req, reply := reply }

/-! ## The `rename` subcommand -/

/-- Name of the pointer file inside the store directory. -/
def lastStateFileName : String := ".last_state"

/-- `Path.exists()` for the path `STATE_DIR / n`: the empty basename denotes
the store directory itself (which exists), `.last_state` denotes the pointer
file, anything else a regular state file. -/
def pathExists (st : Store) (n : String) : Bool :=
  if n = "" then true
  else if n = lastStateFileName then st.ptr ≠ .absent
  else (lookupFile st.files n).isSome

/-- The `rename` subcommand (lines 223-242): sanitize both names, `die`
`NotFoundError` if the source path does not exist, `die` `ConflictError` if
the destination path exists, otherwise move the file and rewrite the pointer
if its stripped content equals the old name.  The degenerate sources that are
not regular state files (empty basename, the pointer file itself) make the
OS-level rename fail or fall outside the state-file model and are mapped to
`storage`. -/
def renameState (st : Store) (old new : String) : Except Err Store :=
  if pathExists st (baseName old) then
    if pathExists st (baseName new) then .error .conflict
    else
      match lookupFile st.files (baseName old) with
      | none => .error .storage
      | some _ =>
        .ok { files := replaceFile st.files (baseName old) (baseName new),
              ptr :=
                match st.ptr with
                | .written c =>
                  if strip c = baseName old then PtrFile.written (baseName new)
                  else PtrFile.written c
                | p => p }
  else .error .notFound

/-! ## Prompt assembly and post-completion bookkeeping of `main` -/

/-- Lines 246-252 of `main`: `prompt = read_prompt_from_stdin()` (which
strips the raw stdin data), then
`if args.prompt: prompt = args.prompt + " " + (args.stdin and prompt or "")`,
with Python truthiness for `args.prompt` and Python `and`/`or` semantics. -/
def computePrompt (pArg : Option String) (stdinFlag : Bool) (stdinRaw : String) : String :=
  let fromStdin := strip stdinRaw
  match pArg with
  | none => fromStdin
  | some t =>
    if t = "" then fromStdin
    else t ++ " " ++ (if stdinFlag ∧ fromStdin ≠ "" then fromStdin else "")

/-- Observable outcome of lines 284-289 of `main` after a successful
completion call. -/
structure TurnOutcome where
  replyReturned : Bool
  warned : Bool
  stateSaved : Bool
  pointerUpdated : Bool
deriving DecidableEq

/-- Lines 284-289 of `main` with the two possible bookkeeping failures:
`save_state` failure raises inside `save_state`, which calls `die` — the
process exits before `print(reply)`; `update_last_state` failure is caught
inside it and printed as a warning to stderr, after which `print(reply)`
still runs. -/
def finishTurn (saveOk ptrOk : Bool) : TurnOutcome :=
  if saveOk then
    if ptrOk then ⟨true, false, true, true⟩
    else ⟨true, true, true, false⟩
  else ⟨false, false, false, false⟩

/-! ## Concrete fixtures -/

/-- The state of the spec's §8 scenario: system prompt `"You are terse."` and
one prior user/assistant exchange. -/
def chatState6 : StateV :=
  ⟨some "You are terse.", some "gpt-4o-mini", [⟨"user", "u1"⟩, ⟨"assistant", "a1"⟩]⟩

/-- A store holding the §8 scenario state under the name `"chat"`. -/
def chatStore6 : Store := ⟨[⟨"chat", .state chatState6, 3⟩], .written "chat"⟩

/-! ## Lemmas about the directory primitives -/

theorem lookupFile_removeFile (fs : List Entry) (n m : String) :
    lookupFile (removeFile fs n) m = if m = n then none else lookupFile fs m := by
  induction fs with
  | nil => simp [removeFile, lookupFile]
  | cons e fs ih =>
    by_cases hen : e.name = n
    · by_cases hmn : m = n
      · subst hmn
        simp [removeFile, hen, ih]
      · have hem : ¬ e.name = m := fun h => hmn (h.symm.trans hen)
        have hnm : ¬ n = m := fun h => hmn h.symm
        simp [removeFile, lookupFile, hen, hmn, hem, hnm, ih]
    · by_cases hem : e.name = m
      · have hmn : ¬ m = n := fun h => hen (hem.trans h)
        simp [removeFile, lookupFile, hen, hem, hmn]
      · simp [removeFile, lookupFile, hen, hem, ih]

theorem lookupFile_append_single (fs : List Entry) (e : Entry) (m : String) :
    lookupFile (fs ++ [e]) m =
      match lookupFile fs m with
      | some x => some x
      | none => if e.name = m then some e else none := by
  induction fs with
  | nil => simp [lookupFile]
  | cons x fs ih =>
    by_cases hxm : x.name = m <;> simp [lookupFile, hxm, ih]

theorem lookupFile_writeFile (fs : List Entry) (n : String) (c : FileContent)
    (t : Nat) (m : String) :
    lookupFile (writeFile fs n c t) m =
      if m = n then some ⟨n, c, t⟩ else lookupFile fs m := by
  unfold writeFile
  rw [lookupFile_append_single, lookupFile_removeFile]
  by_cases hmn : m = n
  · simp [hmn]
  · have hnm : ¬ n = m := fun h => hmn h.symm
    simp only [hmn, if_neg, if_false, hnm]
    cases lookupFile fs m <;> rfl

theorem tmpName_ne (n : String) : tmpName n ≠ n := by
  intro h
  have hlen : (tmpName n).length = n.length := by rw [h]
  unfold tmpName at hlen
  rw [String.length_append] at hlen
  have h4 : (".tmp" : String).length = 4 := rfl
  omega

theorem foldl_newerOf_mem (es : List Entry) (a : Entry) :
    es.foldl newerOf a = a ∨ es.foldl newerOf a ∈ es := by
  induction es generalizing a with
  | nil => exact Or.inl rfl
  | cons x es ih =>
    simp only [List.foldl_cons]
    rcases ih (newerOf a x) with h | h
    · rw [h]
      by_cases hc : a.mtime < x.mtime
      · refine Or.inr ?_
        simp only [newerOf, if_pos hc]
        exact List.mem_cons_self x es
      · refine Or.inl ?_
        simp only [newerOf, if_neg hc]
    · exact Or.inr (List.mem_cons_of_mem x h)

theorem foldl_newerOf_ge (es : List Entry) (a : Entry) :
    a.mtime ≤ (es.foldl newerOf a).mtime ∧
      ∀ x ∈ es, x.mtime ≤ (es.foldl newerOf a).mtime := by
  induction es generalizing a with
  | nil => exact ⟨Nat.le_refl _, by simp⟩
  | cons y es ih =>
    simp only [List.foldl_cons]
    obtain ⟨h1, h2⟩ := ih (newerOf a y)
    have ha : a.mtime ≤ (newerOf a y).mtime := by
      by_cases hc : a.mtime < y.mtime
      · simp only [newerOf, if_pos hc]
        exact Nat.le_of_lt hc
      · simp only [newerOf, if_neg hc]
        exact Nat.le_refl _
    have hy : y.mtime ≤ (newerOf a y).mtime := by
      by_cases hc : a.mtime < y.mtime
      · simp only [newerOf, if_pos hc]
        exact Nat.le_refl _
      · simp only [newerOf, if_neg hc]
        exact Nat.le_of_not_lt hc
    refine ⟨Nat.le_trans ha h1, ?_⟩
    intro x hx
    rcases List.mem_cons.mp hx with h | h
    · rw [h]
      exact Nat.le_trans hy h1
    · exact h2 x h

/-! ## Claims -/

/-- C1 counterexample: on a fresh store (no state files, no pointer file), a
`send` with a prompt, no explicit state name and `ephemeral = false` does not
create any default-named state file — `resolve_state_path` dies with the
no-state `ValidationError` before the API is even called. -/
theorem c1_counterexample :
    send ⟨[], .absent⟩ none "hi" none "gpt-4o-mini" (fun _ _ => "reply") 0 =
      .error .noState := rfl

/-- C1 (amended): for every send invocation with a non-empty prompt, no
explicit state name, `ephemeral = false`, an empty store directory and no
pointer file, the invocation fails with the no-state `ValidationError`; no
state file is created and the pointer stays absent (the error return leaves
the store untouched). -/
theorem c1_fresh_store_fails (prompt : String) (sysArg : Option String)
    (modelArg : String) (complete : String → List Msg → String) (now : Nat)
    (h : prompt ≠ "") :
    send ⟨[], .absent⟩ none prompt sysArg modelArg complete now = .error .noState := by
  unfold send
  rw [if_neg h]
  rfl

/-- C1 witness: the amended theorem at the spec's concrete scenario input. -/
theorem c1_witness :
    send ⟨[], .absent⟩ none "hi" none "gpt-4o-mini" (fun _ _ => "ok") 0 =
      .error .noState :=
  c1_fresh_store_fails "hi" none "gpt-4o-mini" (fun _ _ => "ok") 0 (by decide)

/-- C2: `save_state` writes the serialized state to the temporary file
`<name>.tmp` in the store directory and then atomically renames it over the
target, so an interruption before the rename leaves the previous content of
the target file (if any) completely intact; the completed save leaves the
target holding exactly the new state. -/
theorem c2_save_atomic (st : Store) (n : String) (s : StateV) (now : Nat) :
    lookupFile (saveStateStep1 st n s now).files (tmpName n) =
      some ⟨tmpName n, FileContent.state s, now⟩ ∧
    lookupFile (saveStateStep1 st n s now).files n = lookupFile st.files n ∧
    lookupFile (saveState st n s now).files n = some ⟨n, FileContent.state s, now⟩ := by
  have h1 : lookupFile (writeFile st.files (tmpName n) (FileContent.state s) now)
      (tmpName n) = some ⟨tmpName n, FileContent.state s, now⟩ := by
    rw [lookupFile_writeFile]
    simp
  refine ⟨h1, ?_, ?_⟩
  · show lookupFile (writeFile st.files (tmpName n) (FileContent.state s) now) n =
      lookupFile st.files n
    rw [lookupFile_writeFile]
    exact if_neg (Ne.symm (tmpName_ne n))
  · show lookupFile
      (replaceFile (writeFile st.files (tmpName n) (FileContent.state s) now)
        (tmpName n) n) n = some ⟨n, FileContent.state s, now⟩
    unfold replaceFile
    rw [h1]
    simp only
    rw [lookupFile_writeFile]
    simp

/-- C3 counterexample: when the completion succeeded but `save_state` fails,
the process dies before `print(reply)` — so it is not the case that either
both bookkeeping writes succeed or the reply is still returned with a
warning. -/
theorem c3_counterexample :
    ¬ (((finishTurn false true).stateSaved = true ∧
          (finishTurn false true).pointerUpdated = true) ∨
        ((finishTurn false true).replyReturned = true ∧
          (finishTurn false true).warned = true)) := by decide

/-- C3 (amended): after a successful completion, when the state save
succeeds the turn is never partially applied against the reply: either the
pointer update also succeeds, or the pointer-write failure is downgraded to
a clearly surfaced warning and the reply is still returned — a pointer-write
failure never aborts the invocation.  A save failure, by contrast, aborts
the invocation (`die`) without returning the reply. -/
theorem c3_pointer_failure_nonfatal (ptrOk : Bool) :
    (finishTurn true ptrOk).replyReturned = true ∧
    (finishTurn true ptrOk).stateSaved = true ∧
    (ptrOk = false → (finishTurn true ptrOk).warned = true ∧
      (finishTurn true ptrOk).pointerUpdated = false) ∧
    (ptrOk = true → (finishTurn true ptrOk).pointerUpdated = true ∧
      (finishTurn true ptrOk).warned = false) ∧
    (finishTurn false ptrOk).replyReturned = false := by
  cases ptrOk <;> decide

/-- C3 witness: the amended theorem at the pointer-write-failure input. -/
theorem c3_witness :
    (finishTurn true false).replyReturned = true ∧
    (finishTurn true false).warned = true :=
  ⟨(c3_pointer_failure_nonfatal false).1,
    ((c3_pointer_failure_nonfatal false).2.2.1 rfl).1⟩

/-- C4: with an explicit state name the resolver ignores the store entirely
(pointer, directory scan, and whether the file exists), strips directory
components from the name, fails with `ValidationError` when the sanitized
result is empty, and otherwise resolves to exactly the sanitized name inside
the store directory. -/
theorem c4_resolver_explicit (st st' : Store) (s : String) :
    resolve st (some s) = resolve st' (some s) ∧
    (baseName s = "" → resolve st (some s) = .error .emptyName) ∧
    (baseName s ≠ "" → resolve st (some s) = .ok (baseName s)) := by
  unfold resolve
  by_cases h : baseName s = "" <;> simp [h]

/-- C4 witness: a name with directory components resolves to its basename,
even on a store whose pointer and newest file point elsewhere. -/
theorem c4_witness :
    resolve ⟨[⟨"elsewhere", .state defaultState, 9⟩], .written "elsewhere"⟩
      (some "dir/sub/chat.gpt") = .ok "chat.gpt" :=
  ((c4_resolver_explicit
      ⟨[⟨"elsewhere", .state defaultState, 9⟩], .written "elsewhere"⟩
      ⟨[], .absent⟩ "dir/sub/chat.gpt").2.2 (by decide)).trans (by decide)

/-- C5: with no explicit name and a pointer file that is missing, empty
(strips to `""`) or unreadable, resolution returns the name of an existing
state file whose modification time is maximal; with no state files at all it
fails with the no-state `ValidationError`. -/
theorem c5_resolver_fallback (st : Store) (h : ptrGivesNone st = true) :
    (st.files = [] → resolve st none = .error .noState) ∧
    (st.files ≠ [] → ∃ e, e ∈ st.files ∧ resolve st none = .ok e.name ∧
      ∀ x ∈ st.files, x.mtime ≤ e.mtime) := by
  have hg : getLastStateName st = fallbackNewest st := by
    unfold getLastStateName
    cases hp : st.ptr with
    | written c =>
      unfold ptrGivesNone at h
      rw [hp] at h
      simp only [decide_eq_true_eq] at h
      simp [h]
    | absent => rfl
    | unreadable => rfl
  constructor
  · intro hnil
    simp [resolve, hg, fallbackNewest, hnil, newestFile]
  · intro hne
    obtain ⟨e, es, hcons⟩ : ∃ e es, st.files = e :: es := by
      cases hf : st.files with
      | nil => exact absurd hf hne
      | cons e es => exact ⟨e, es, rfl⟩
    refine ⟨es.foldl newerOf e, ?_, ?_, ?_⟩
    · rw [hcons]
      rcases foldl_newerOf_mem es e with h' | h'
      · rw [h']
        exact List.mem_cons_self e es
      · exact List.mem_cons_of_mem e h'
    · simp [resolve, hg, fallbackNewest, hcons, newestFile]
    · rw [hcons]
      intro x hx
      obtain ⟨h1, h2⟩ := foldl_newerOf_ge es e
      rcases List.mem_cons.mp hx with h' | h'
      · exact h' ▸ h1
      · exact h2 x h'

/-- C5 witness: a whitespace-only pointer falls back to the directory scan
and picks the state file with the larger mtime. -/
theorem c5_witness :
    ∃ e, e ∈ (⟨[⟨"a", .state defaultState, 1⟩, ⟨"b", .state defaultState, 5⟩],
        .written "  "⟩ : Store).files ∧
      resolve ⟨[⟨"a", .state defaultState, 1⟩, ⟨"b", .state defaultState, 5⟩],
        .written "  "⟩ none = .ok e.name ∧
      ∀ x ∈ (⟨[⟨"a", .state defaultState, 1⟩, ⟨"b", .state defaultState, 5⟩],
          .written "  "⟩ : Store).files, x.mtime ≤ e.mtime :=
  (c5_resolver_fallback
    ⟨[⟨"a", .state defaultState, 1⟩, ⟨"b", .state defaultState, 5⟩], .written "  "⟩
    (by decide)).2 (by decide)

/-- C6: the request message list is exactly the optional system message
(present iff the state's `system` field is a non-empty string), then the
stored history in original order, then the new user turn; `build_messages`
reads the state without modifying it (it is a pure function of the state in
this embedding, as in the source, which only copies out of `state`).  In the
§8 scenario with one prior exchange, the request passed to the API is exactly
the 4 messages in order, and the saved state afterwards holds 4 messages. -/
theorem c6_request_assembly (s : StateV) (p : String) :
    requestMessages s p =
      (if sysTruthy s.system then [⟨"system", s.system.getD ""⟩] else []) ++
        s.messages ++ [⟨"user", p⟩] ∧
    (send chatStore6 (some "chat") "next" none "gpt-4o-mini"
        (fun _ _ => "a2") 9).map (fun r => r.request) =
      .ok [⟨"system", "You are terse."⟩, ⟨"user", "u1"⟩, ⟨"assistant", "a1"⟩,
        ⟨"user", "next"⟩] ∧
    (send chatStore6 (some "chat") "next" none "gpt-4o-mini"
        (fun _ _ => "a2") 9).map (fun r => lookupFile r.store.files "chat") =
      .ok (some ⟨"chat", .state ⟨some "You are terse.", some "gpt-4o-mini",
        [⟨"user", "u1"⟩, ⟨"assistant", "a1"⟩, ⟨"user", "next"⟩,
          ⟨"assistant", "a2"⟩]⟩, 9⟩) := by
  refine ⟨?_, by decide, by decide⟩
  unfold requestMessages buildMessages
  simp [List.append_assoc]

/-- C7: `rename old new` (after basename sanitization, for proper state names
distinct from the pointer file) fails with `NotFoundError` when the old name
has no file; fails with `ConflictError` when the new name's file exists —
returning before anything is touched, so neither file is modified; and
otherwise moves the file (content and mtime preserved, old name gone) and
rewrites the pointer to the new name exactly when its stripped content was
the old name. -/
theorem c7_rename_contract (st : Store) (old new : String)
    (h1 : baseName old ≠ "") (h2 : baseName new ≠ "")
    (h3 : baseName old ≠ lastStateFileName) (h4 : baseName new ≠ lastStateFileName) :
    (lookupFile st.files (baseName old) = none →
      renameState st old new = .error .notFound) ∧
    (∀ e, lookupFile st.files (baseName old) = some e →
      (lookupFile st.files (baseName new)).isSome = true →
      renameState st old new = .error .conflict) ∧
    (∀ e, lookupFile st.files (baseName old) = some e →
      lookupFile st.files (baseName new) = none →
      ∃ st', renameState st old new = .ok st' ∧
        lookupFile st'.files (baseName old) = none ∧
        lookupFile st'.files (baseName new) =
          some ⟨baseName new, e.content, e.mtime⟩ ∧
        (∀ c, st.ptr = .written c → strip c = baseName old →
          st'.ptr = .written (baseName new)) ∧
        (∀ c, st.ptr = .written c → strip c ≠ baseName old → st'.ptr = .written c) ∧
        (st.ptr = .absent → st'.ptr = .absent) ∧
        (st.ptr = .unreadable → st'.ptr = .unreadable)) := by
  have hex : ∀ n, n ≠ "" → n ≠ lastStateFileName →
      pathExists st n = (lookupFile st.files n).isSome := by
    intro n hn hl
    unfold pathExists
    rw [if_neg hn, if_neg hl]
  refine ⟨?_, ?_, ?_⟩
  · intro hnone
    unfold renameState
    rw [hex _ h1 h3, hnone]
    rfl
  · intro e hsome hdst
    unfold renameState
    rw [hex _ h1 h3, hsome, hex _ h2 h4, hdst]
    rfl
  · intro e hsome hdst
    have hsd : baseName old ≠ baseName new := by
      intro h
      rw [h, hdst] at hsome
      exact Option.noConfusion hsome
    have hds : ¬ baseName new = baseName old := fun h => hsd h.symm
    refine ⟨{ files := replaceFile st.files (baseName old) (baseName new),
              ptr :=
                match st.ptr with
                | .written c =>
                  if strip c = baseName old then PtrFile.written (baseName new)
                  else PtrFile.written c
                | p => p }, ?_, ?_, ?_, ?_, ?_, ?_, ?_⟩
    · unfold renameState
      rw [hex _ h1 h3, hsome, hex _ h2 h4, hdst]
      rfl
    · unfold replaceFile
      rw [hsome]
      simp only
      rw [lookupFile_writeFile, if_neg hsd, lookupFile_removeFile, if_pos rfl]
    · unfold replaceFile
      rw [hsome]
      simp only
      rw [lookupFile_writeFile, if_pos rfl]
    · intro c hp hc
      simp [hp, hc]
    · intro c hp hc
      simp only [hp, if_neg hc]
    · intro hp
      simp only [hp]
    · intro hp
      simp only [hp]

/-- C7 witness: the spec's §8 scenario `rename "a" "b"` with `"b"` present
fails with `ConflictError`. -/
theorem c7_witness :
    renameState ⟨[⟨"a", .state defaultState, 1⟩, ⟨"b", .state defaultState, 2⟩],
      .absent⟩ "a" "b" = .error .conflict :=
  (c7_rename_contract
    ⟨[⟨"a", .state defaultState, 1⟩, ⟨"b", .state defaultState, 2⟩], .absent⟩
    "a" "b" (by decide) (by decide) (by decide) (by decide)).2.1
    ⟨"a", .state defaultState, 1⟩ (by decide) (by decide)

/-- C8 counterexample: saving state `"chat"` uses the temporary file
`"chat.tmp"` inside the store directory, so it destroys a distinct state
that is literally named `"chat.tmp"`: the save truncates it and then renames
it away. -/
theorem c8_counterexample :
    lookupFile (saveState ⟨[⟨"chat.tmp", .state defaultState, 1⟩], .absent⟩
        "chat" defaultState 2).files "chat.tmp" = none ∧
    lookupFile (⟨[⟨"chat.tmp", .state defaultState, 1⟩], .absent⟩ : Store).files
        "chat.tmp" = some ⟨"chat.tmp", .state defaultState, 1⟩ := by decide

/-- C8 (amended): distinct names map to distinct files, and `save(n, s)`
leaves the backing file of every other state `m` unchanged — except for the
one state name that collides with the temporary file, `m = n ++ ".tmp"`,
whose file the save overwrites and then removes. -/
theorem c8_save_frame (st : Store) (n m : String) (s : StateV) (now : Nat)
    (hm : m ≠ n) (ht : m ≠ tmpName n) :
    lookupFile (saveState st n s now).files m = lookupFile st.files m := by
  have h1 : lookupFile (writeFile st.files (tmpName n) (FileContent.state s) now)
      (tmpName n) = some ⟨tmpName n, FileContent.state s, now⟩ := by
    rw [lookupFile_writeFile]
    simp
  show lookupFile
    (replaceFile (writeFile st.files (tmpName n) (FileContent.state s) now)
      (tmpName n) n) m = lookupFile st.files m
  unfold replaceFile
  rw [h1]
  simp only
  rw [lookupFile_writeFile, if_neg hm, lookupFile_removeFile, if_neg ht,
    lookupFile_writeFile, if_neg ht]

/-- C8 witness: saving `"chat"` leaves the unrelated state `"other"`
untouched. -/
theorem c8_witness :
    lookupFile (saveState ⟨[⟨"other", .state defaultState, 1⟩], .absent⟩
        "chat" defaultState 5).files "other" =
      lookupFile (⟨[⟨"other", .state defaultState, 1⟩], .absent⟩ : Store).files
        "other" :=
  c8_save_frame ⟨[⟨"other", .state defaultState, 1⟩], .absent⟩ "chat" "other"
    defaultState 5 (by decide) (by decide)

/-- C9 counterexample: `-p ""` is falsy in Python, so the prompt falls back
to the stdin content instead of the claimed `"" + " "`. -/
theorem c9_counterexample :
    computePrompt (some "") false "hello" = "hello" ∧ ("hello" : String) ≠ " " := by
  decide

/-- C9 (amended): for every invocation where `-p` (`--prompt`) supplies
*non-empty* text `T` and `--stdin` is not given, the prompt used is exactly
`T` followed by a single space, never `T` itself; with `--stdin` it is `T`,
a space, then the stripped stdin content (so still `T` plus a trailing space
when stdin strips to empty).  When `T` is empty, the option is ignored by
Python truthiness and the stdin content alone is used. -/
theorem c9_prompt_trailing_space (t d : String) (h : t ≠ "") :
    computePrompt (some t) false d = t ++ " " ∧
    computePrompt (some t) true d = t ++ " " ++ strip d := by
  constructor
  · simp only [computePrompt]
    rw [if_neg h]
    simp [String.append_empty]
  · simp only [computePrompt]
    rw [if_neg h]
    by_cases hd : strip d = ""
    · rw [hd]
      simp [String.append_empty]
    · simp [hd]

/-- C9 witness: the amended theorem at concrete inputs. -/
theorem c9_witness :
    computePrompt (some "T") false "ignored" = "T " ∧
    computePrompt (some "T") true " hi " = "T hi" := by
  have h1 := (c9_prompt_trailing_space "T" "ignored" (by decide)).1
  have h2 := (c9_prompt_trailing_space "T" " hi " (by decide)).2
  exact ⟨h1.trans (by decide), h2.trans (by decide)⟩

/-- C10: with no explicit name and a pointer naming a state whose file does
not exist, resolution still returns that name (no existence check), and the
subsequent load returns the default empty state rather than an error. -/
theorem c10_dangling_pointer (st : Store) (c : String)
    (hp : st.ptr = .written c) (hne : strip c ≠ "")
    (habsent : lookupFile st.files (strip c) = none) :
    resolve st none = .ok (strip c) ∧ loadState st (strip c) = .ok defaultState := by
  constructor
  · unfold resolve getLastStateName
    rw [hp]
    simp [hne]
  · unfold loadState
    rw [habsent]

/-- C10 witness: a pointer to the missing state `"ghost"` resolves to
`"ghost"` and loads the default empty state. -/
theorem c10_witness :
    resolve ⟨[], .written "ghost"⟩ none = .ok "ghost" ∧
    loadState ⟨[], .written "ghost"⟩ "ghost" = .ok defaultState := by
  have h := c10_dangling_pointer ⟨[], .written "ghost"⟩ "ghost" rfl
    (by decide) (by decide)
  have e : strip "ghost" = "ghost" := by decide
  rw [e] at h
  exact h

end GptCli
